import Mathlib

/-!
Shallow embedding of `src/main.py` (the Voyage reranker FastAPI service).

The embedding follows the Python source line by line:

* `Json` models parsed JSON values as produced by `json.loads` (Python ints
  and floats are distinct constructors, since list indexing accepts an int
  but raises `TypeError` on a float).
* `Document`, `RerankRequest` model the pydantic request models.
* `buildPayload` models lines 97-104 (payload construction, including the
  truthiness test `if req.top_k:`).
* `processResult` / `processResults` / `normalize` model lines 140-177
  (the response-processing loop), with Python semantics made explicit:
  `dict.get` returns `None` for a missing key, `doc_index < len(...)`
  raises `TypeError` on non-numeric values, and `req.documents[doc_index]`
  uses Python indexing (negative indices wrap; out-of-range raises
  `IndexError`).  A raised exception is modelled as `Except.error`.
* `rerank` models the whole endpoint body (lines 86-177): the credential
  check, the empty-documents check, the provider call outcome dispatch
  (timeout / transport error / non-200 / unparsable body) and the
  normalization step; an uncaught Python exception surfaces as the
  framework's 500 Internal Server Error.
-/

/-- A parsed JSON value, as returned by Python's `json.loads`.
Integers and floats are kept apart because Python treats them differently
as list indices; floats are represented exactly as rationals (the code
performs no arithmetic on them, it only carries them through). -/
inductive Json where
  | null : Json
  | bool (b : Bool) : Json
  | int (n : Int) : Json
  | float (q : Rat) : Json
  | str (s : String) : Json
  | arr (items : List Json) : Json
  | obj (fields : List (String × Json)) : Json

/-- Python's `doc_index is not None` test, negated (main.py line 153). -/
def Json.isNull : Json → Bool
  | .null => true
  | _ => false

/-- Field lookup in a JSON object.  `json.loads` keeps the last occurrence
of a duplicated key, so the lookup returns the last binding. -/
def lookupLast (fs : List (String × Json)) (k : String) : Option Json :=
  match fs with
  | [] => none
  | (k1, v) :: rest =>
    match lookupLast rest k with
    | some v1 => some v1
    | none => if k1 = k then some v else none

/-- `class Document` (main.py lines 31-34): id, content, metadata. -/
structure Document where
  id : Option String
  content : String
  metadata : Option Json

/-- `class RerankRequest` (main.py lines 36-40). -/
structure RerankRequest where
  query : String
  documents : List Document
  model : Option String
  top_k : Option Int

/-- One entry of the `ranked` list built by the endpoint.  In the `data`
branch all five keys are present (`relevance_score` and `index` hold the
JSON values taken from the provider result); in the fallback branch only
`id`, `content` and `metadata` are emitted, so the last two are `none`. -/
structure RankedEntry where
  id : Option String
  content : String
  metadata : Option Json
  relevance_score : Option Json
  index : Option Json

/-- The endpoint's success body: `{"voyage_raw": data, "ranked": [...]}`. -/
structure NormOutput where
  voyage_raw : Json
  ranked : List RankedEntry

/-- Python exceptions that the response-processing loop can raise. -/
inductive PyErr where
  | typeError : PyErr
  | attributeError : PyErr
  | indexError : PyErr

/-- Python's `doc_index < len(req.documents)` (main.py line 153): defined
for numbers and booleans, `TypeError` otherwise (`None` is excluded by the
`is not None` guard before the comparison is reached). -/
def pyLtLen (j : Json) (n : Nat) : Except PyErr Bool :=
  match j with
  | .int m => .ok (decide (m < (n : Int)))
  | .float q => .ok (decide (q < (n : Rat)))
  | .bool b => .ok (decide ((if b then 1 else 0) < (n : Int)))
  | _ => .error .typeError

/-- Python's `req.documents[doc_index]` (main.py line 154): an integer (or
boolean) index succeeds when in `[-len, len)`, with negative values
wrapping from the end; out of that range raises `IndexError`; any other
value (notably a float) raises `TypeError`. -/
def pyIndexDocs (docs : List Document) (j : Json) : Except PyErr Document :=
  match j with
  | .int n =>
    let i : Int := if n < 0 then n + docs.length else n
    if 0 ≤ i ∧ i < docs.length then
      match docs[i.toNat]? with
      | some d => .ok d
      | none => .error .indexError
    else .error .indexError
  | .bool b =>
    let i : Nat := if b then 1 else 0
    match docs[i]? with
    | some d => .ok d
    | none => .error .indexError
  | _ => .error .typeError

/-- The body of the `for result in results` loop (main.py lines 149-161)
for one `result`.  `result.get("index")` yields `None` both for a missing
key and for an explicit JSON `null`; `result.get("relevance_score", 0.0)`
yields `0.0` only when the key is missing.  Returns `some` entry when the
result is appended, `none` when it is skipped, and an error when the
iteration raises (`.get` on a non-dict raises `AttributeError`). -/
def processResult (docs : List Document) (result : Json) :
    Except PyErr (Option RankedEntry) :=
  match result with
  | .obj fs =>
    let doc_index := (lookupLast fs "index").getD Json.null
    let score := (lookupLast fs "relevance_score").getD (Json.float 0)
    if doc_index.isNull then .ok none
    else
      match pyLtLen doc_index docs.length with
      | .error e => .error e
      | .ok false => .ok none
      | .ok true =>
        match pyIndexDocs docs doc_index with
        | .error e => .error e
        | .ok d => .ok (some ⟨d.id, d.content, d.metadata, some score, some doc_index⟩)
  | _ => .error .attributeError

/-- The whole `for result in results` loop over a Python list. -/
def processResults (docs : List Document) : List Json → Except PyErr (List RankedEntry)
  | [] => .ok []
  | r :: rest =>
    match processResult docs r with
    | .error e => .error e
    | .ok entry =>
      match processResults docs rest with
      | .error e => .error e
      | .ok tail => .ok (match entry with | some x => x :: tail | none => tail)

/-- `for result in results` when `results` is an arbitrary JSON value:
a list iterates its items; a string iterates its characters and a dict its
keys (both are strings, so the first `.get` raises `AttributeError` unless
the iteration is empty); any other value raises `TypeError`. -/
def iterateResults (docs : List Document) (results : Json) :
    Except PyErr (List RankedEntry) :=
  match results with
  | .arr items => processResults docs items
  | .str s => if s.isEmpty then .ok [] else .error .attributeError
  | .obj fs => if fs.isEmpty then .ok [] else .error .attributeError
  | _ => .error .typeError

/-- The fallback branch (main.py lines 168-175): one entry per original
document, in order, carrying only id/content/metadata. -/
def fallbackRanked (docs : List Document) : List RankedEntry :=
  docs.map fun d => ⟨d.id, d.content, d.metadata, none, none⟩

/-- Response processing (main.py lines 140-177): if the parsed body is a
dict containing the key `"data"`, run the mapping loop over its value,
otherwise produce the fallback.  `voyage_raw` is always the body itself. -/
def normalizeResponse (data : Json) (req : RerankRequest) : Except PyErr NormOutput :=
  match data with
  | .obj fields =>
    match lookupLast fields "data" with
    | some results =>
      match iterateResults req.documents results with
      | .error e => .error e
      | .ok ranked => .ok ⟨data, ranked⟩
    | none => .ok ⟨data, fallbackRanked req.documents⟩
  | _ => .ok ⟨data, fallbackRanked req.documents⟩

/-- Server-side configuration: the `VOYAGE_API_KEY` environment variable
(`none` when unset; note the code treats the empty string as unset too,
via `if not VOYAGE_API_KEY`). -/
structure Config where
  apiKey : Option String

/-- Outcome of the outbound HTTP POST to the provider:
a timeout (`httpx.TimeoutException`), another transport error
(`httpx.RequestError`), or an HTTP response with a status code, the result
of attempting `resp.json()` (`none` when unparsable) and `resp.text`. -/
inductive ProviderOutcome where
  | timeout : ProviderOutcome
  | transportError (msg : String) : ProviderOutcome
  | response (status : Nat) (jsonBody : Option Json) (text : String) : ProviderOutcome

/-- An HTTP error response (`HTTPException`, or the framework's 500). -/
structure HTTPError where
  status : Nat
  detail : Json

def noKeyDetail : Json :=
  .str "Voyage API key not configured on server. Set VOYAGE_API_KEY environment variable."

def noDocsDetail : Json := .str "No documents provided for reranking"

def timeoutDetail : Json := .str "Timeout contacting Voyage API"

def internalErrorDetail : Json := .str "Internal Server Error"

/-- The outbound payload (main.py lines 97-104): query, bare document
contents, `req.model or "rerank-1"` (Python `or`: `None` and `""` both
fall back to the default), and `top_k` only when `req.top_k` is truthy
(not `None` and not `0`). -/
def buildPayload (req : RerankRequest) : List (String × Json) :=
  [("query", .str req.query),
   ("documents", .arr (req.documents.map fun d => .str d.content)),
   ("model", .str (match req.model with
                   | some m => if m = "" then "rerank-1" else m
                   | none => "rerank-1"))]
  ++ (match req.top_k with
      | some k => if k = 0 then [] else [("top_k", Json.int k)]
      | none => [])

/-- The `POST /rerank` endpoint body (main.py lines 86-177), with the
provider call abstracted as a function from the outbound payload to a
`ProviderOutcome`.  An uncaught exception during response processing
surfaces as the framework's 500 Internal Server Error. -/
def rerank (cfg : Config) (req : RerankRequest)
    (provider : List (String × Json) → ProviderOutcome) :
    Except HTTPError NormOutput :=
  match cfg.apiKey with
  | none => .error ⟨500, noKeyDetail⟩
  | some key =>
    if key = "" then .error ⟨500, noKeyDetail⟩
    else if req.documents.isEmpty then .error ⟨400, noDocsDetail⟩
    else
      match provider (buildPayload req) with
      | .timeout => .error ⟨504, timeoutDetail⟩
      | .transportError msg =>
        .error ⟨502, .str ("Error contacting Voyage API: " ++ msg)⟩
      | .response status jsonBody text =>
        if status ≠ 200 then
          .error ⟨status, .obj [("voyage_error", jsonBody.getD (.str text)),
                                ("message", .str "Voyage API returned an error")]⟩
        else
          match jsonBody with
          | none => .error ⟨502, .str "Invalid response from Voyage API"⟩
          | some data =>
            match normalizeResponse data req with
            | .error _ => .error ⟨500, internalErrorDetail⟩
            | .ok out => .ok out

/-! ### Helper lemmas -/

/-- The fallback list has one entry per original document. -/
theorem fallbackRanked_length (docs : List Document) :
    (fallbackRanked docs).length = docs.length := by
  simp [fallbackRanked]

/-- The fallback entry at position `i` copies the document at position `i`. -/
theorem fallbackRanked_get (docs : List Document) (i : Nat) (d : Document)
    (h : docs[i]? = some d) :
    (fallbackRanked docs)[i]? = some ⟨d.id, d.content, d.metadata, none, none⟩ := by
  simp [fallbackRanked, List.getElem?_map, h]

/-- Every fallback entry is unscored and carries no index. -/
theorem fallbackRanked_unscored (docs : List Document) :
    ∀ e ∈ fallbackRanked docs, e.relevance_score = none ∧ e.index = none := by
  intro e he
  simp only [fallbackRanked, List.mem_map] at he
  obtain ⟨d, _, rfl⟩ := he
  exact ⟨rfl, rfl⟩

/-- A body that is an object without a `"data"` key takes the fallback
branch. -/
theorem normalizeResponse_no_data (fields : List (String × Json))
    (req : RerankRequest) (hnodata : lookupLast fields "data" = none) :
    normalizeResponse (.obj fields) req = .ok ⟨.obj fields, fallbackRanked req.documents⟩ := by
  simp [normalizeResponse, hnodata]

/-- Integer indexing, non-negative in-range case. -/
theorem pyIndexDocs_nonneg (docs : List Document) (n : Int)
    (h0 : 0 ≤ n) (hlt : n < (docs.length : Int)) :
    ∃ d, docs[n.toNat]? = some d ∧ pyIndexDocs docs (.int n) = .ok d := by
  have hn : n.toNat < docs.length := by omega
  refine ⟨docs[n.toNat], List.getElem?_eq_getElem hn, ?_⟩
  simp only [pyIndexDocs]
  rw [if_neg (by omega : ¬ n < 0)]
  rw [if_pos ⟨h0, hlt⟩]
  rw [List.getElem?_eq_getElem hn]

/-- Integer indexing, negative in-range case: Python wraps from the end. -/
theorem pyIndexDocs_neg (docs : List Document) (n : Int)
    (h1 : -(docs.length : Int) ≤ n) (h2 : n < 0) :
    ∃ d, docs[(n + docs.length).toNat]? = some d ∧ pyIndexDocs docs (.int n) = .ok d := by
  have hn : (n + docs.length).toNat < docs.length := by omega
  refine ⟨docs[(n + docs.length).toNat], List.getElem?_eq_getElem hn, ?_⟩
  simp only [pyIndexDocs]
  rw [if_pos h2]
  rw [if_pos ⟨by omega, by omega⟩]
  rw [List.getElem?_eq_getElem hn]

/-- Integer indexing, below `-len`: Python raises `IndexError`. -/
theorem pyIndexDocs_oob_low (docs : List Document) (n : Int)
    (h : n < -(docs.length : Int)) :
    pyIndexDocs docs (.int n) = .error .indexError := by
  simp only [pyIndexDocs]
  rw [if_pos (by omega : n < 0)]
  rw [if_neg (by omega : ¬ (0 ≤ n + (docs.length : Int) ∧ n + (docs.length : Int) < docs.length))]

/-- Reduction of `processResult` on an object whose `"index"` field is an
integer. -/
theorem processResult_int (docs : List Document) (fs : List (String × Json))
    (n : Int) (hidx : lookupLast fs "index" = some (Json.int n)) :
    processResult docs (.obj fs) =
      if n < (docs.length : Int) then
        match pyIndexDocs docs (.int n) with
        | .error e => .error e
        | .ok d => .ok (some ⟨d.id, d.content, d.metadata,
            some ((lookupLast fs "relevance_score").getD (Json.float 0)), some (.int n)⟩)
      else .ok none := by
  by_cases h : n < (docs.length : Int)
  · simp only [processResult, hidx]
    simp [Json.isNull, pyLtLen, h]
  · simp only [processResult, hidx]
    simp [Json.isNull, pyLtLen, h]

/-- Entries from a prefix of the result list come before entries from the
suffix: the loop emits kept results in provider-supplied order. -/
theorem processResults_append (docs : List Document) (xs ys : List Json)
    (rx ry : List RankedEntry) (hx : processResults docs xs = .ok rx)
    (hy : processResults docs ys = .ok ry) :
    processResults docs (xs ++ ys) = .ok (rx ++ ry) := by
  induction xs generalizing rx with
  | nil =>
    simp only [processResults] at hx
    cases hx
    simpa using hy
  | cons r rest ih =>
    simp only [processResults] at hx ⊢
    cases hpr : processResult docs r with
    | error e => rw [hpr] at hx; cases hx
    | ok entry =>
      rw [hpr] at hx
      cases hrest : processResults docs rest with
      | error e => rw [hrest] at hx; cases hx
      | ok tail =>
        rw [hrest] at hx
        simp only [List.append_eq]
        rw [ih tail hrest]
        cases entry with
        | none => cases hx; rfl
        | some x => cases hx; rfl

/-! ### Concrete inputs used by witnesses and counterexamples -/

def docAlpha : Document := ⟨some "a", "alpha", none⟩

def docBeta : Document := ⟨some "b", "beta", some (.obj [("k", .int 1)])⟩

/-! ### Claims -/

/-- C1, counterexample: the provider body `{"scores": [0.5, 0.9]}` carries
a numeric-score list under the candidate field `"scores"` whose length
equals the document count (2), and the request has `top_k = 1`.  The code
does not treat it as per-document scores: it produces the fallback of two
unscored entries in input order, so `len(ranked)` is `2`, not
`min(2, 1) = 1`, and nothing is sorted by score. -/
theorem claim1_counterexample :
    (normalizeResponse (.obj [("scores", .arr [.float (1/2), .float (9/10)])])
        ⟨"q", [docAlpha, docBeta], none, some 1⟩
      = .ok ⟨.obj [("scores", .arr [.float (1/2), .float (9/10)])],
             [⟨some "a", "alpha", none, none, none⟩,
              ⟨some "b", "beta", some (.obj [("k", .int 1)]), none, none⟩]⟩)
    ∧ ¬((2 : Nat) = min 2 1) :=
  ⟨rfl, by decide⟩

/-- C1 (amended): the code has no numeric-score branch.  A provider body
that is an object whose numeric-score list (of length equal to the
document count) sits under any field other than `"data"` is not
recognized: the normalizer returns the fallback — one unscored entry per
document in original input order — and `top_k` is not applied. -/
theorem claim1_theorem (req : RerankRequest) (fields : List (String × Json))
    (key : String) (scores : List Rat)
    (hne : req.documents ≠ [])
    (hfield : lookupLast fields key = some (.arr (scores.map Json.float)))
    (hlen : scores.length = req.documents.length)
    (hnodata : lookupLast fields "data" = none) :
    normalizeResponse (.obj fields) req
      = .ok ⟨.obj fields, fallbackRanked req.documents⟩
    ∧ (fallbackRanked req.documents).length = req.documents.length
    ∧ ∀ e ∈ fallbackRanked req.documents, e.relevance_score = none := by
  refine ⟨normalizeResponse_no_data fields req hnodata, fallbackRanked_length _, ?_⟩
  intro e he
  exact (fallbackRanked_unscored req.documents e he).1

/-- C1, witness: the amended theorem applied to a concrete one-document
request and the body `{"scores": [0.5]}`. -/
theorem claim1_witness :
    normalizeResponse (.obj [("scores", .arr [.float (1/2)])])
        ⟨"q", [docAlpha], none, none⟩
      = .ok ⟨.obj [("scores", .arr [.float (1/2)])], fallbackRanked [docAlpha]⟩ :=
  ( claim1_theorem ⟨"q", [docAlpha], none, none⟩ [("scores", .arr [.float (1/2)])]
    "scores" [1/2] (by simp) rfl rfl rfl).1

/-- C2, counterexample: against two documents, the provider result
`{"index": -1, "relevance_score": 0.5}` has its index outside
`[0, 2)`, yet it is not dropped: the check `doc_index < len(req.documents)`
has no lower bound, so Python's negative indexing keeps the entry and
resolves it to the last document, with `index = -1` in the output. -/
theorem claim2_counterexample :
    (normalizeResponse
        (.obj [("data", .arr [.obj [("index", .int (-1)),
                                    ("relevance_score", .float (1/2))]])])
        ⟨"q", [docAlpha, docBeta], none, none⟩
      = .ok ⟨.obj [("data", .arr [.obj [("index", .int (-1)),
                                        ("relevance_score", .float (1/2))]])],
             [⟨some "b", "beta", some (.obj [("k", .int 1)]),
               some (.float (1/2)), some (.int (-1))⟩]⟩)
    ∧ ¬(0 ≤ (-1 : Int)) :=
  ⟨rfl, by decide⟩

/-- C2 (amended): a result with an integer index is dropped (non-fatally)
only when its index is at least the document count; an index in
`[0, doc_count)` is kept referencing that position; a negative index in
`[-doc_count, -1]` is NOT dropped — it is kept and resolves Python-style
to the document at position `doc_count + index`; an index below
`-doc_count` raises `IndexError` (the whole request fails). -/
theorem claim2_theorem (docs : List Document) (fs : List (String × Json))
    (n : Int) (hidx : lookupLast fs "index" = some (Json.int n)) :
    ((docs.length : Int) ≤ n → processResult docs (.obj fs) = .ok none)
    ∧ (0 ≤ n → n < (docs.length : Int) → ∃ d, docs[n.toNat]? = some d ∧
        processResult docs (.obj fs) = .ok (some ⟨d.id, d.content, d.metadata,
          some ((lookupLast fs "relevance_score").getD (Json.float 0)),
          some (.int n)⟩))
    ∧ (-(docs.length : Int) ≤ n → n < 0 → ∃ d,
        docs[(n + docs.length).toNat]? = some d ∧
        processResult docs (.obj fs) = .ok (some ⟨d.id, d.content, d.metadata,
          some ((lookupLast fs "relevance_score").getD (Json.float 0)),
          some (.int n)⟩))
    ∧ (n < -(docs.length : Int) →
        processResult docs (.obj fs) = .error .indexError) := by
  have hpr := processResult_int docs fs n hidx
  refine ⟨?_, ?_, ?_, ?_⟩
  · intro hge
    rw [hpr, if_neg (by omega)]
  · intro h0 hlt
    obtain ⟨d, hget, hd⟩ := pyIndexDocs_nonneg docs n h0 hlt
    refine ⟨d, hget, ?_⟩
    rw [hpr, if_pos hlt, hd]
  · intro h1 h2
    obtain ⟨d, hget, hd⟩ := pyIndexDocs_neg docs n h1 h2
    refine ⟨d, hget, ?_⟩
    rw [hpr, if_pos (by omega), hd]
  · intro hlow
    rw [hpr, if_pos (by omega), pyIndexDocs_oob_low docs n hlow]

/-- C2, witness: the amended theorem applied at a concrete out-of-range
index (5 against one document): the result is dropped. -/
theorem claim2_witness :
    processResult [docAlpha] (.obj [("index", .int 5)]) = .ok none :=
  (claim2_theorem [docAlpha] [("index", .int 5)] 5 rfl).1 (by decide)

/-- C3, counterexample: with the exact body from the claim,
`{"data": [{"index": 1, "score": 0.9}]}` against two documents, the code
reads the provider score from the key `"relevance_score"` (not `"score"`),
so the single output entry carries the default score `0.0`, not `0.9`. -/
theorem claim3_counterexample :
    (normalizeResponse
        (.obj [("data", .arr [.obj [("index", .int 1), ("score", .float (9/10))]])])
        ⟨"q", [docAlpha, docBeta], none, none⟩
      = .ok ⟨.obj [("data", .arr [.obj [("index", .int 1),
                                        ("score", .float (9/10))]])],
             [⟨some "b", "beta", some (.obj [("k", .int 1)]),
               some (.float 0), some (.int 1)⟩]⟩)
    ∧ Json.float 0 ≠ Json.float (9/10) := by
  refine ⟨rfl, ?_⟩
  intro h
  have : (0 : Rat) = 9/10 := Json.float.inj h
  norm_num at this

/-- C3 (amended): for a provider body `{"data": [{"index": 1,
"relevance_score": 0.9}]}` (the provider's score key is
`relevance_score`) against any request with exactly two documents, the
output `ranked` has exactly one entry carrying document 1's original
content and metadata together with score `0.9` and index `1`; and the
branch never re-sorts — kept entries appear in provider-supplied order. -/
theorem claim3_theorem (q : String) (d0 d1 : Document) (m : Option String)
    (k : Option Int) :
    normalizeResponse
        (.obj [("data", .arr [.obj [("index", .int 1),
                                    ("relevance_score", .float (9/10))]])])
        ⟨q, [d0, d1], m, k⟩
      = .ok ⟨.obj [("data", .arr [.obj [("index", .int 1),
                                        ("relevance_score", .float (9/10))]])],
             [⟨d1.id, d1.content, d1.metadata, some (.float (9/10)),
               some (.int 1)⟩]⟩
    ∧ (∀ docs xs ys rx ry, processResults docs xs = .ok rx →
        processResults docs ys = .ok ry →
        processResults docs (xs ++ ys) = .ok (rx ++ ry)) :=
  ⟨rfl, processResults_append⟩

/-- C3, witness: the amended theorem applied to two concrete documents. -/
theorem claim3_witness :
    normalizeResponse
        (.obj [("data", .arr [.obj [("index", .int 1),
                                    ("relevance_score", .float (9/10))]])])
        ⟨"q", [docAlpha, docBeta], none, none⟩
      = .ok ⟨.obj [("data", .arr [.obj [("index", .int 1),
                                        ("relevance_score", .float (9/10))]])],
             [⟨some "b", "beta", some (.obj [("k", .int 1)]),
               some (.float (9/10)), some (.int 1)⟩]⟩ :=
  ( claim3_theorem "q" docAlpha docBeta none none).1

/-- C4, counterexample: the provider body `{"data": 5}` has no
recognizable result shape, yet the service does not return the 200
fallback: the code enters the `"data"` branch, `for result in results`
raises `TypeError` on the integer, and the request fails with the
framework's 500 — not 200. -/
theorem claim4_counterexample :
    (rerank ⟨some "k"⟩ ⟨"q", [docAlpha], none, none⟩
        (fun _ => .response 200 (some (.obj [("data", .int 5)])) "")
      = .error ⟨500, internalErrorDetail⟩)
    ∧ (500 : Nat) ≠ 200 :=
  ⟨rfl, by decide⟩

/-- C4 (amended): for every provider body that is a JSON object WITHOUT a
`"data"` field (the code's notion of an unrecognized shape), the service
returns 200 with one entry per original input document, in original
order, each entry unscored (no score key), and `voyage_raw` equal to the
provider body verbatim.  (A body WITH a `"data"` field is not covered by
the fallback guarantee: the counterexample's `{"data": 5}` fails with a
500 instead.) -/
theorem claim4_theorem (cfg : Config) (key : String) (req : RerankRequest)
    (fields : List (String × Json)) (txt : String)
    (provider : List (String × Json) → ProviderOutcome)
    (hkey : cfg.apiKey = some key) (hk : key ≠ "")
    (hne : req.documents ≠ [])
    (hnodata : lookupLast fields "data" = none)
    (hprov : provider (buildPayload req) = .response 200 (some (.obj fields)) txt) :
    rerank cfg req provider = .ok ⟨.obj fields, fallbackRanked req.documents⟩
    ∧ (fallbackRanked req.documents).length = req.documents.length
    ∧ (∀ (i : Nat) (d : Document), req.documents[i]? = some d →
        (fallbackRanked req.documents)[i]?
          = some (⟨d.id, d.content, d.metadata, none, none⟩ : RankedEntry))
    ∧ (∀ e ∈ fallbackRanked req.documents, e.relevance_score = none ∧ e.index = none) := by
  have hie : req.documents.isEmpty = false := by
    cases hd : req.documents with
    | nil => exact absurd hd hne
    | cons a l => rfl
  refine ⟨?_, fallbackRanked_length _, fun i d h => fallbackRanked_get _ i d h,
    fallbackRanked_unscored _⟩
  simp only [rerank, hkey]
  rw [if_neg hk]
  simp only [hie, Bool.false_eq_true, if_false, hprov]
  simp [normalizeResponse_no_data fields req hnodata]

/-- C4, witness: a configured key, one document, and the unrecognized body
`{"foo": "bar"}` from the spec's example. -/
theorem claim4_witness :
    rerank ⟨some "k"⟩ ⟨"q", [docAlpha], none, none⟩
        (fun _ => .response 200 (some (.obj [("foo", .str "bar")])) "")
      = .ok ⟨.obj [("foo", .str "bar")], fallbackRanked [docAlpha]⟩ :=
  (claim4_theorem ⟨some "k"⟩ "k" ⟨"q", [docAlpha], none, none⟩
    [("foo", .str "bar")] "" _ rfl (by decide) (by simp) rfl rfl).1

/-- C5, counterexample: with `top_k = -1` (supplied but negative), the
outbound payload DOES contain `top_k = -1`, because the code's guard is
Python truthiness (`if req.top_k:`), not positivity. -/
theorem claim5_counterexample :
    (lookupLast (buildPayload ⟨"q", [docAlpha], none, some (-1)⟩) "top_k"
      = some (.int (-1)))
    ∧ ¬((0 : Int) < -1) :=
  ⟨rfl, by decide⟩

/-- Value of the `"top_k"` key of the outbound payload, by cases on
`req.top_k`. -/
theorem lookup_top_k (req : RerankRequest) :
    lookupLast (buildPayload req) "top_k" =
      (match req.top_k with
       | none => none
       | some k => if k = 0 then none else some (.int k)) := by
  cases htk : req.top_k with
  | none =>
    simp only [buildPayload, htk]
    rfl
  | some k =>
    by_cases hk0 : k = 0
    · subst hk0
      simp only [buildPayload, htk]
      rfl
    · simp only [buildPayload, htk]
      rw [if_neg hk0, if_neg hk0]
      rfl

/-- C5 (amended): the outbound payload contains `top_k` iff `top_k` was
supplied and is nonzero (Python truthiness); when it is absent or zero no
`top_k` is sent, but a supplied negative value IS sent. -/
theorem claim5_theorem (req : RerankRequest) :
    (lookupLast (buildPayload req) "top_k" = none
      ↔ (req.top_k = none ∨ req.top_k = some 0))
    ∧ (∀ k, req.top_k = some k → k ≠ 0 →
        lookupLast (buildPayload req) "top_k" = some (.int k)) := by
  have hl := lookup_top_k req
  constructor
  · rw [hl]
    cases htk : req.top_k with
    | none => simp
    | some k =>
      by_cases hk0 : k = 0
      · subst hk0; simp
      · simp [hk0]
  · intro k hk hk0
    rw [hl, hk]
    simp [hk0]

/-- C5, witness: the amended theorem at `top_k = -1`: the key is sent. -/
theorem claim5_witness :
    lookupLast (buildPayload ⟨"q", [docAlpha], none, some (-1)⟩) "top_k"
      = some (.int (-1)) :=
  ( claim5_theorem ⟨"q", [docAlpha], none, some (-1)⟩).2 (-1) rfl (by decide)

/-- C6 (confirmed, given a configured credential — without one the 500
credential check fires first, see C10): an empty documents list is
rejected with status 400 before any outbound call; the result is the same
for every provider behavior, so no provider call is observable. -/
theorem claim6_theorem (cfg : Config) (key : String) (req : RerankRequest)
    (hkey : cfg.apiKey = some key) (hk : key ≠ "")
    (hempty : req.documents = []) :
    ∀ provider, rerank cfg req provider = .error ⟨400, noDocsDetail⟩ := by
  intro provider
  simp only [rerank, hkey]
  rw [if_neg hk]
  simp [hempty]

/-- C6, witness: concrete empty-documents request, arbitrary provider. -/
theorem claim6_witness :
    rerank ⟨some "k"⟩ ⟨"q", [], none, none⟩ (fun _ => .timeout)
      = .error ⟨400, noDocsDetail⟩ :=
  claim6_theorem ⟨some "k"⟩ "k" ⟨"q", [], none, none⟩ rfl (by decide) rfl _

/-- C7 (confirmed): a provider timeout yields status 504
(`httpx.TimeoutException` is caught before the generic
`httpx.RequestError`), every other transport failure yields 502, and the
two statuses are distinct. -/
theorem claim7_theorem (cfg : Config) (key : String) (req : RerankRequest)
    (hkey : cfg.apiKey = some key) (hk : key ≠ "")
    (hne : req.documents ≠ []) :
    (∀ provider, provider (buildPayload req) = .timeout →
        rerank cfg req provider = .error ⟨504, timeoutDetail⟩)
    ∧ (∀ provider msg, provider (buildPayload req) = .transportError msg →
        rerank cfg req provider
          = .error ⟨502, .str ("Error contacting Voyage API: " ++ msg)⟩)
    ∧ (504 : Nat) ≠ 502 := by
  have hie : req.documents.isEmpty = false := by
    cases hd : req.documents with
    | nil => exact absurd hd hne
    | cons a l => rfl
  refine ⟨?_, ?_, by decide⟩
  · intro provider hprov
    simp only [rerank, hkey]
    rw [if_neg hk]
    simp [hie, hprov]
  · intro provider msg hprov
    simp only [rerank, hkey]
    rw [if_neg hk]
    simp [hie, hprov]

/-- C7, witness: concrete request, timing-out provider. -/
theorem claim7_witness :
    rerank ⟨some "k"⟩ ⟨"q", [docAlpha], none, none⟩ (fun _ => .timeout)
      = .error ⟨504, timeoutDetail⟩ :=
  (claim7_theorem ⟨some "k"⟩ "k" ⟨"q", [docAlpha], none, none⟩ rfl (by decide)
    (by simp)).1 _ rfl

/-- C8 (confirmed): when the provider answers with a non-200 status, the
service fails with that same status, and the error detail carries the
upstream body — the parsed JSON when `resp.json()` succeeds, the raw text
otherwise. -/
theorem claim8_theorem (cfg : Config) (key : String) (req : RerankRequest)
    (provider : List (String × Json) → ProviderOutcome)
    (status : Nat) (jb : Option Json) (txt : String)
    (hkey : cfg.apiKey = some key) (hk : key ≠ "")
    (hne : req.documents ≠ []) (hstatus : status ≠ 200)
    (hprov : provider (buildPayload req) = .response status jb txt) :
    rerank cfg req provider
      = .error ⟨status, .obj [("voyage_error", jb.getD (.str txt)),
                              ("message", .str "Voyage API returned an error")]⟩
    ∧ (∀ j, jb = some j → jb.getD (.str txt) = j)
    ∧ (jb = none → jb.getD (.str txt) = .str txt) := by
  have hie : req.documents.isEmpty = false := by
    cases hd : req.documents with
    | nil => exact absurd hd hne
    | cons a l => rfl
  refine ⟨?_, ?_, ?_⟩
  · simp only [rerank, hkey]
    rw [if_neg hk]
    simp [hie, hprov, hstatus]
  · intro j hj; rw [hj]; rfl
  · intro hj; rw [hj]; rfl

/-- C8, witness: concrete 429 provider response with a JSON error body. -/
theorem claim8_witness :
    rerank ⟨some "k"⟩ ⟨"q", [docAlpha], none, none⟩
        (fun _ => .response 429 (some (.obj [("detail", .str "rate limited")]))
          "rate limited")
      = .error ⟨429, .obj [("voyage_error", .obj [("detail", .str "rate limited")]),
                           ("message", .str "Voyage API returned an error")]⟩ :=
  (claim8_theorem ⟨some "k"⟩ "k" ⟨"q", [docAlpha], none, none⟩ _ 429
    (some (.obj [("detail", .str "rate limited")])) "rate limited" rfl
    (by decide) (by simp) (by decide) rfl).1

/-- C9 (confirmed): normalization is deterministic — identical provider
bodies and identical requests normalize identically (two-run equality);
the processing is a pure function of the body and the request. -/
theorem claim9_theorem (b1 b2 : Json) (r1 r2 : RerankRequest)
    (hb : b1 = b2) (hr : r1 = r2) :
    normalizeResponse b1 r1 = normalizeResponse b2 r2 := by
  rw [hb, hr]

/-- C9, witness: two runs on a concrete body and request agree. -/
theorem claim9_witness :
    normalizeResponse (.obj [("foo", .str "bar")]) ⟨"q", [docAlpha], none, none⟩
      = normalizeResponse (.obj [("foo", .str "bar")]) ⟨"q", [docAlpha], none, none⟩ :=
  claim9_theorem _ _ _ _ rfl rfl

/-- C10 (confirmed): with no API key configured, every request — whatever
its documents, including an empty list — fails with status 500: the
credential check (main.py line 86) precedes the empty-documents check
(line 93), so the 400 path is unreachable without a key. -/
theorem claim10_theorem (cfg : Config) (req : RerankRequest)
    (hkey : cfg.apiKey = none) :
    (∀ provider, rerank cfg req provider = .error ⟨500, noKeyDetail⟩)
    ∧ (500 : Nat) ≠ 400 := by
  refine ⟨?_, by decide⟩
  intro provider
  simp [rerank, hkey]

/-- C10, witness: no key and an EMPTY documents list still yields the 500
credential error, not the 400 validation error. -/
theorem claim10_witness :
    rerank ⟨none⟩ ⟨"q", [], none, none⟩ (fun _ => .timeout)
      = .error ⟨500, noKeyDetail⟩ :=
  (claim10_theorem ⟨none⟩ ⟨"q", [], none, none⟩ rfl).1 _
